import Mathlib

/-!
# Verification of the `logging_system` module

Shallow embedding of `src/logging_system.py`: the `LogContext` dataclass,
the thread-local context store and its scoped context manager, the record
builder (`makeRecord` plus dynamic `setattr` of caller fields), the
`StructuredFormatter`, the handler dispatch of `Logger.handle`, the `timer`
context manager, and the `get_logger` singleton accessor.

Python runtime values attached to a log record are modelled by the
inductive `Value`; a record's `__dict__` is an association list preserving
insertion order, with `setAttr` mirroring `setattr` (overwrite in place,
else append).  JSON output of `json.dumps(log_entry, default=str)` is the
inductive `JValue`.
-/

set_option autoImplicit false

namespace LoggingSystem

/-- Python errors that the modelled code can raise. -/
inductive PyError where
  | typeError
  | attributeError
  | valueError
  | runtimeError
  deriving DecidableEq, Repr

/-- The `LogContext` dataclass (src/logging_system.py lines 29-37):
`correlation_id` is required, `user_id`/`session_id`/`request_id` default to
`None`, `service_name` and `version` default to fixed strings. -/
structure LogContext where
  correlation_id : String
  user_id : Option String := none
  session_id : Option String := none
  request_id : Option String := none
  service_name : String := "logging-service"
  version : String := "1.0.0"
  deriving DecidableEq, Repr

/-- The field names accepted by `LogContext(**kwargs)`. -/
def logContextFieldNames : List String :=
  ["correlation_id", "user_id", "session_id", "request_id",
   "service_name", "version"]

/-- Keyword arguments of a call, as an insertion-ordered association list
(string values suffice for the `LogContext` constructor). -/
def lookupKw (kws : List (String × String)) (k : String) : Option String :=
  (kws.find? (fun p => p.1 == k)).map (fun p => p.2)

/-- `LogContext(**kwargs)`: raises `TypeError` on an unexpected keyword or
when the required `correlation_id` is missing; otherwise builds the
dataclass, applying the field defaults. -/
def mkLogContext (kws : List (String × String)) : Except PyError LogContext :=
  if kws.all (fun p => logContextFieldNames.contains p.1) then
    match lookupKw kws "correlation_id" with
    | none => .error .typeError
    | some cid =>
        .ok { correlation_id := cid
              user_id := lookupKw kws "user_id"
              session_id := lookupKw kws "session_id"
              request_id := lookupKw kws "request_id"
              service_name := (lookupKw kws "service_name").getD "logging-service"
              version := (lookupKw kws "version").getD "1.0.0" }
  else .error .typeError

/-- Lines 220-222 of `AdvancedLogger.context`: when the caller did not
supply a `correlation_id`, `kwargs["correlation_id"] = str(uuid.uuid4())`
is inserted; `fresh` stands for the generated UUID string. -/
def contextKwargs (kws : List (String × String)) (fresh : String) :
    List (String × String) :=
  if (lookupKw kws "correlation_id").isSome then kws
  else kws ++ [("correlation_id", fresh)]

/-- Entry half of the `context` manager (lines 217-229): inject the
correlation id, save the old context, construct the new `LogContext`
(possibly raising `TypeError`), install it, and yield the new context's
`correlation_id`.  Returns the yielded string and the installed ambient
context. -/
def contextEnter (_st : Option LogContext) (kws : List (String × String))
    (fresh : String) : Except PyError (String × Option LogContext) :=
  match mkLogContext (contextKwargs kws fresh) with
  | .error e => .error e
  | .ok newContext => .ok (newContext.correlation_id, some newContext)

/-- A body made of nested scoped-context calls: the only operations the
stack-restore claims quantify over.  `raiseErr` models the scoped body
raising; `fresh` is the UUID generated for that entry. -/
inductive CtxProg where
  | skip : CtxProg
  | raiseErr : CtxProg
  | seq (p q : CtxProg) : CtxProg
  | scope (kws : List (String × String)) (fresh : String) (body : CtxProg) : CtxProg
  deriving DecidableEq, Repr

/-- Interpreter for nested `context(**kwargs)` scopes over the ambient
thread-local context (lines 204-234).  A `scope` saves `old_context`,
builds the new `LogContext` (a `TypeError` there propagates with the
ambient state untouched), installs the new context, runs the body, and in
the `finally` block restores `old_context` when it was set (dataclass
instances are always truthy) or clears the slot otherwise; the body's
outcome is re-raised after restoration. -/
def runCtx : Option LogContext → CtxProg → Except PyError Unit × Option LogContext
  | st, .skip => (.ok (), st)
  | st, .raiseErr => (.error .runtimeError, st)
  | st, .seq p q =>
      match runCtx st p with
      | (.ok _, st1) => runCtx st1 q
      | (.error e, st1) => (.error e, st1)
  | st, .scope kws fresh body =>
      match mkLogContext (contextKwargs kws fresh) with
      | .error e => (.error e, st)
      | .ok newContext =>
          let inner := runCtx (some newContext) body
          let restored := match st with
            | some oldContext => some oldContext
            | none => none
          (inner.1, restored)

/-- The exception triple built by `AdvancedLogger.error` (line 285):
`exc_info = (type(exception), exception, exception.__traceback__)`.  The
formatter reads the class name of the first component, `str` of the second
and `formatException` of the whole; those three strings are what the
embedding keeps. -/
structure ExcInfo where
  typeName : String
  message : String
  traceback : String
  deriving DecidableEq, Repr

/-- A Python runtime value as it can appear in a record's `__dict__`:
`None`, a bool, an int, a float (modelled by a rational), a string, a
tuple (the `args` slot holds one), a `LogContext` object, an `exc_info`
triple, or any other object retained by its `str()` rendering. -/
inductive Value where
  | vnull
  | vbool (b : Bool)
  | vint (n : Int)
  | vfloat (q : Rat)
  | vstr (s : String)
  | vtuple (elems : List Value)
  | vctx (c : LogContext)
  | vexc (e : ExcInfo)
  | vother (s : String)

/-- Python truthiness of a `Value` (used by `if record.exc_info:` and
`if self.args:`; an empty tuple is falsy). -/
def pyTruthy : Value → Bool
  | .vnull => false
  | .vbool b => b
  | .vint n => n != 0
  | .vfloat q => q != 0
  | .vstr s => s ≠ ""
  | .vtuple l => !l.isEmpty
  | .vctx _ => true
  | .vexc _ => true
  | .vother _ => true

/-- Python `str()` of a `Value`.  For a `LogContext` this is the dataclass
repr; for tuples and `exc_info` triples the tuple repr; these are
placeholders whose exact spelling no claim depends on. -/
def pyStr : Value → String
  | .vnull => "None"
  | .vbool b => if b then "True" else "False"
  | .vint n => toString n
  | .vfloat q => toString q
  | .vstr s => s
  | .vtuple _ => "(...)"
  | .vctx c => "LogContext(correlation_id=" ++ c.correlation_id ++ ")"
  | .vexc e => "(" ++ e.typeName ++ ", " ++ e.message ++ ", ...)"
  | .vother s => s

/-- The right operand of `%`: a tuple supplies its elements, any other
value is treated as a single argument, as in Python. -/
def pyFormatArgs : Value → List Value
  | .vtuple l => l
  | v => [v]

/-- `msg % args` over the message's characters.  Conversions are consumed
left to right: `%%` is a literal percent, `%s` takes `str()` of the next
argument, `%d` the integer rendering of a bool, int, or float (truncated
toward zero).  A missing argument raises `TypeError` ("not enough
arguments"), leftover arguments at the end raise `TypeError` ("not all
arguments converted"), and a specifier outside the modelled set raises
`ValueError` — the conversions the module's callers can reach; none of the
records this module itself builds carry truthy `args`. -/
def pyFormatChars : List Char → List Value → Except PyError (List Char)
  | [], [] => .ok []
  | [], _ :: _ => .error .typeError
  | '%' :: '%' :: rest, args =>
      (pyFormatChars rest args).map (fun t => '%' :: t)
  | '%' :: 's' :: rest, args =>
      match args with
      | [] => .error .typeError
      | a :: args1 => (pyFormatChars rest args1).map (fun t => (pyStr a).data ++ t)
  | '%' :: 'd' :: rest, args =>
      match args with
      | [] => .error .typeError
      | a :: args1 =>
          match a with
          | .vint n => (pyFormatChars rest args1).map (fun t => (toString n).data ++ t)
          | .vbool b =>
              (pyFormatChars rest args1).map
                (fun t => (toString (if b then (1 : Int) else 0)).data ++ t)
          | .vfloat q =>
              (pyFormatChars rest args1).map
                (fun t => (toString (if 0 ≤ q then ⌊q⌋ else ⌈q⌉)).data ++ t)
          | _ => .error .typeError
  | '%' :: _ :: _, _ => .error .valueError
  | ['%'], _ => .error .valueError
  | c :: rest, args => (pyFormatChars rest args).map (fun t => c :: t)

/-- Python's `msg % args`. -/
def pyFormat (msg : String) (args : Value) : Except PyError String :=
  (pyFormatChars msg.data (pyFormatArgs args)).map (fun cs => String.mk cs)

/-- A record's `__dict__`: insertion-ordered attribute list. -/
abbrev Attrs := List (String × Value)

/-- `getattr(record, k)` / `hasattr`: the binding of `k` in `__dict__`. -/
def getAttr : Attrs → String → Option Value
  | [], _ => none
  | p :: rest, k => if p.1 == k then some p.2 else getAttr rest k

/-- `getattr` with a dummy default for attributes the formatter reads
unconditionally (they always exist on a real record). -/
def getAttrD (attrs : Attrs) (k : String) : Value :=
  (getAttr attrs k).getD .vnull

/-- `setattr(record, k, v)`: a dict update — overwrite the binding in
place when the key exists (keeping its position), otherwise append. -/
def setAttr : Attrs → String → Value → Attrs
  | [], k, v => [(k, v)]
  | p :: rest, k, v => if p.1 == k then (k, v) :: rest else p :: setAttr rest k v

/-- `LogRecord.getMessage`: `msg = str(self.msg)`, then
`if self.args: msg = msg % self.args` — the `%` step can raise. -/
def getMessage (attrs : Attrs) : Except PyError String :=
  let msg := pyStr (getAttrD attrs "msg")
  let args := getAttrD attrs "args"
  if pyTruthy args then pyFormat msg args else .ok msg

/-- `logging.getLevelName` for the numeric levels the module uses. -/
def levelNameOf (level : Int) : String :=
  if level == 10 then "DEBUG"
  else if level == 20 then "INFO"
  else if level == 30 then "WARNING"
  else if level == 40 then "ERROR"
  else if level == 50 then "CRITICAL"
  else "Level " ++ toString level

/-- `Logger.makeRecord(name, level, fn="", lno=0, msg, args=(), exc_info)`:
the `__dict__` a fresh `LogRecord` carries (CPython `LogRecord.__init__`
attribute order).  Wall-clock floats (`created`, `msecs`,
`relativeCreated`) and thread/process ids are placeholders: they are all in
the formatter's excluded list and no claim reads them. -/
def baseAttrs (loggerName : String) (level : Int) (message : String)
    (excInfo : Option ExcInfo) : Attrs :=
  [("name", .vstr loggerName),
   ("msg", .vstr message),
   ("args", .vtuple []),
   ("levelname", .vstr (levelNameOf level)),
   ("levelno", .vint level),
   ("pathname", .vstr ""),
   ("filename", .vstr ""),
   ("module", .vstr ""),
   ("exc_info", match excInfo with
                | some e => .vexc e
                | none => .vnull),
   ("exc_text", .vnull),
   ("stack_info", .vnull),
   ("lineno", .vint 0),
   ("funcName", .vstr ""),
   ("created", .vfloat 0),
   ("msecs", .vfloat 0),
   ("relativeCreated", .vfloat 0),
   ("thread", .vint 0),
   ("threadName", .vstr "MainThread"),
   ("processName", .vstr "MainProcess"),
   ("process", .vint 0)]

/-- Lines 249-253 / 298-302: when an ambient context exists, attach it and
its correlation id as dedicated record attributes. -/
def addContextAttrs (attrs : Attrs) (ctx : Option LogContext) : Attrs :=
  match ctx with
  | none => attrs
  | some c =>
      setAttr (setAttr attrs "context" (.vctx c)) "correlation_id"
        (.vstr c.correlation_id)

/-- Lines 255-257 / 304-306: `setattr(record, key, value)` for every
caller keyword argument, in order. -/
def applyKwargs (attrs : Attrs) (kwargs : List (String × Value)) : Attrs :=
  kwargs.foldl (fun a p => setAttr a p.1 p.2) attrs

/-- `AdvancedLogger._log_with_context` (lines 236-260): build the record
via `makeRecord` with `exc_info=None`, attach the ambient context, then
setattr the caller fields.  Dispatch to handlers is modelled separately by
`handleRecord`. -/
def logWithContext (loggerName : String) (ctx : Option LogContext)
    (level : Int) (message : String) (kwargs : List (String × Value)) : Attrs :=
  applyKwargs (addContextAttrs (baseAttrs loggerName level message none) ctx) kwargs

/-- `AdvancedLogger.error` (lines 274-309): always builds the record at
`logging.ERROR`; when an exception is supplied its triple becomes the
record's `exc_info`; context and caller fields are attached exactly as in
`_log_with_context`. -/
def errorMethod (loggerName : String) (ctx : Option LogContext)
    (message : String) (exception : Option ExcInfo)
    (kwargs : List (String × Value)) : Attrs :=
  applyKwargs (addContextAttrs (baseAttrs loggerName 40 message exception) ctx) kwargs

/-- A JSON value as produced by `json.dumps`. -/
inductive JValue where
  | jnull
  | jbool (b : Bool)
  | jint (n : Int)
  | jfloat (q : Rat)
  | jstr (s : String)
  | jarr (elems : List JValue)
  | jobj (entries : List (String × JValue))

/-- `d[key] = value` on the `log_entry` dict: overwrite in place, else
append. -/
def dictSet : List (String × JValue) → String → JValue → List (String × JValue)
  | [], k, v => [(k, v)]
  | p :: rest, k, v => if p.1 == k then (k, v) :: rest else p :: dictSet rest k v

/-- The binding of `k` in a serialized entry list. -/
def dictLookup : List (String × JValue) → String → Option JValue
  | [], _ => none
  | p :: rest, k => if p.1 == k then some p.2 else dictLookup rest k

mutual

/-- `json.dumps(v, default=str)` on a single attribute value: primitives
map to the corresponding JSON scalars, tuples serialize natively as JSON
arrays, and anything else is stringified by the `default=str` fallback. -/
def serializeValue : Value → JValue
  | .vnull => .jnull
  | .vbool b => .jbool b
  | .vint n => .jint n
  | .vfloat q => .jfloat q
  | .vstr s => .jstr s
  | .vtuple l => .jarr (serializeList l)
  | .vctx c => .jstr (pyStr (.vctx c))
  | .vexc e => .jstr (pyStr (.vexc e))
  | .vother s => .jstr s

/-- Elementwise serialization of a tuple's members. -/
def serializeList : List Value → List JValue
  | [] => []
  | v :: rest => serializeValue v :: serializeList rest

end

/-- `dataclasses.asdict` on a `LogContext`. -/
def ctxToJson (c : LogContext) : JValue :=
  .jobj [("correlation_id", .jstr c.correlation_id),
         ("user_id", match c.user_id with
                     | some s => .jstr s
                     | none => .jnull),
         ("session_id", match c.session_id with
                        | some s => .jstr s
                        | none => .jnull),
         ("request_id", match c.request_id with
                        | some s => .jstr s
                        | none => .jnull),
         ("service_name", .jstr c.service_name),
         ("version", .jstr c.version)]

/-- The attribute names skipped by the extra-fields loop of
`StructuredFormatter.format` (lines 80-84). -/
def excludedKeys : List String :=
  ["name", "msg", "args", "levelname", "levelno", "pathname",
   "filename", "module", "lineno", "funcName", "created",
   "msecs", "relativeCreated", "thread", "threadName",
   "processName", "process", "exc_info", "exc_text",
   "stack_info", "context", "correlation_id", "duration"]

/-- `StructuredFormatter.format` (lines 46-87).  `ts` stands for
`datetime.utcnow().isoformat() + "Z"`.  The base entries read the record's
attributes (so a clobbered slot is read clobbered); `asdict` on a
non-dataclass `context` attribute raises `TypeError`; a truthy `exc_info`
that is not an exception triple fails when subscripted/attributed; the
final loop copies every non-excluded `__dict__` entry over the dict built
so far. -/
def formatRecord (ts : String) (attrs : Attrs) :
    Except PyError (List (String × JValue)) := do
  let message ← getMessage attrs
  let base : List (String × JValue) :=
    [("timestamp", .jstr ts),
     ("level", serializeValue (getAttrD attrs "levelname")),
     ("logger", serializeValue (getAttrD attrs "name")),
     ("message", .jstr message),
     ("module", serializeValue (getAttrD attrs "module")),
     ("function", serializeValue (getAttrD attrs "funcName")),
     ("line", serializeValue (getAttrD attrs "lineno"))]
  let withCtx ← match getAttr attrs "context" with
    | none => pure base
    | some (.vctx c) => pure (dictSet base "context" (ctxToJson c))
    | some _ => throw .typeError
  let withCid := match getAttr attrs "correlation_id" with
    | none => withCtx
    | some v => dictSet withCtx "correlation_id" (serializeValue v)
  let withDur := match getAttr attrs "duration" with
    | none => withCid
    | some v => dictSet withCid "duration_ms" (serializeValue v)
  let withExc ← match getAttr attrs "exc_info" with
    | some v =>
        if pyTruthy v then
          match v with
          | .vexc e =>
              pure (dictSet withDur "exception"
                (.jobj [("type", .jstr e.typeName),
                        ("message", .jstr e.message),
                        ("traceback", .jstr e.traceback)]))
          | _ => throw .attributeError
        else pure withDur
    | none => pure withDur
  pure (attrs.foldl
    (fun d p =>
      if excludedKeys.contains p.1 then d
      else dictSet d p.1 (serializeValue p.2))
    withExc)

/-- The three sinks installed by `_setup_handlers`. -/
inductive SinkKind where
  | console
  | file
  | errorFile
  deriving DecidableEq, Repr

/-- A handler as configured in `_setup_handlers`: its own minimum level,
which sink it is, and (for the rotating file handlers) filename and
size/backup parameters. -/
structure HandlerM where
  level : Int
  kind : SinkKind
  filename : Option String := none
  maxBytes : Option Nat := none
  backupCount : Option Nat := none
  deriving DecidableEq, Repr

/-- `AdvancedLogger._setup_handlers` (lines 172-202): a console handler at
the facade level, a rotating file handler for `<name>.log` at DEBUG, and a
rotating file handler for `<name>_errors.log` at ERROR. -/
def setupHandlers (name logDir : String) (logLevel : Int)
    (maxFileSize backupCount : Nat) : List HandlerM :=
  [{ level := logLevel, kind := .console },
   { level := 10, kind := .file,
     filename := some (logDir ++ "/" ++ name ++ ".log"),
     maxBytes := some maxFileSize, backupCount := some backupCount },
   { level := 40, kind := .errorFile,
     filename := some (logDir ++ "/" ++ name ++ "_errors.log"),
     maxBytes := some maxFileSize, backupCount := some backupCount }]

/-- `record.levelno` as read by `Logger.callHandlers` (always a `vint` for
records this module builds). -/
def recordLevelno (attrs : Attrs) : Int :=
  match getAttr attrs "levelno" with
  | some (.vint n) => n
  | _ => 0

/-- `Logger.handle` → `Logger.callHandlers`: the record is offered to each
installed handler and accepted exactly when
`record.levelno >= handler.level`.  No logger-level check happens on this
path — `_log_with_context` calls `handle` directly, bypassing
`isEnabledFor`. -/
def handleRecord (handlers : List HandlerM) (attrs : Attrs) : List HandlerM :=
  handlers.filter (fun h => h.level ≤ recordLevelno attrs)

/-- The sinks a record is dispatched to. -/
def dispatchedKinds (handlers : List HandlerM) (attrs : Attrs) : List SinkKind :=
  (handleRecord handlers attrs).map (fun h => h.kind)

/-- `AdvancedLogger.timer` (lines 315-338): emit the INFO "Starting"
record, run the body; on an exception compute
`duration = (time.time() - start_time) * 1000`, emit the ERROR record via
`self.error(..., exception=e, operation=..., duration=...)` and re-raise;
on normal completion emit the INFO "Completed" record with the duration.
`startT`/`endT` stand for the two `time.time()` readings (seconds); the
body is its outcome.  Returns the emitted records in order and the outcome
propagated to the caller. -/
def timerRun (loggerName : String) (ctx : Option LogContext) (op : String)
    (body : Except ExcInfo Unit) (startT endT : Rat) :
    List Attrs × Except ExcInfo Unit :=
  let startRec := logWithContext loggerName ctx 20 ("Starting " ++ op)
    [("operation", .vstr op)]
  match body with
  | .error e =>
      let dur := (endT - startT) * 1000
      let errRec := errorMethod loggerName ctx ("Failed " ++ op) (some e)
        [("operation", .vstr op), ("duration", .vfloat dur)]
      ([startRec, errRec], .error e)
  | .ok _ =>
      let dur := (endT - startT) * 1000
      let doneRec := logWithContext loggerName ctx 20 ("Completed " ++ op)
        [("operation", .vstr op), ("duration", .vfloat dur)]
      ([startRec, doneRec], .ok ())

/-- The keyword arguments `get_logger` forwards to `AdvancedLogger`
(lines 144-146), with their defaults. -/
structure LoggerKwargs where
  log_level : String := "INFO"
  log_dir : String := "logs"
  max_file_size : Nat := 10485760
  backup_count : Nat := 5
  deriving DecidableEq, Repr

/-- The `AdvancedLogger` state the claims read: name, resolved facade
level, log directory, and the handlers installed by `_setup_handlers`. -/
structure AdvancedLoggerM where
  name : String
  log_level : Int
  log_dir : String
  handlers : List HandlerM
  deriving DecidableEq, Repr

/-- Python `str.upper()` for the ASCII level names. -/
def pyUpper (s : String) : String := String.mk (s.data.map Char.toUpper)

/-- `getattr(logging, log_level.upper())` (line 158): the level names
defined by the `logging` module; any other string raises
`AttributeError`. -/
def levelFromString (s : String) : Except PyError Int :=
  if pyUpper s == "DEBUG" then .ok 10
  else if pyUpper s == "INFO" then .ok 20
  else if pyUpper s == "WARNING" then .ok 30
  else if pyUpper s == "WARN" then .ok 30
  else if pyUpper s == "ERROR" then .ok 40
  else if pyUpper s == "CRITICAL" then .ok 50
  else if pyUpper s == "FATAL" then .ok 50
  else if pyUpper s == "NOTSET" then .ok 0
  else .error .attributeError

/-- `AdvancedLogger.__init__` (lines 144-170): resolve the level string,
record name and directory, and install the three handlers. -/
def mkAdvancedLogger (name : String) (kw : LoggerKwargs) :
    Except PyError AdvancedLoggerM :=
  match levelFromString kw.log_level with
  | .error e => .error e
  | .ok lvl =>
      .ok { name := name, log_level := lvl, log_dir := kw.log_dir,
            handlers := setupHandlers name kw.log_dir lvl
              kw.max_file_size kw.backup_count }

/-- `get_logger` (lines 344-349) acting on the `_default_logger` global:
returns the cached instance untouched when its name matches, otherwise
constructs a fresh `AdvancedLogger` and replaces the cache.  The `Bool`
records whether a constructor call happened. -/
def getLogger (st : Option AdvancedLoggerM) (name : String)
    (kw : LoggerKwargs) :
    Except PyError (AdvancedLoggerM × Option AdvancedLoggerM × Bool) :=
  match st with
  | some cached =>
      if cached.name == name then .ok (cached, some cached, false)
      else
        match mkAdvancedLogger name kw with
        | .error e => .error e
        | .ok fresh => .ok (fresh, some fresh, true)
  | none =>
      match mkAdvancedLogger name kw with
      | .error e => .error e
      | .ok fresh => .ok (fresh, some fresh, true)

/-- Modelled from the spec: the size-based rotation of
`logging.handlers.RotatingFileHandler` lives in the Python standard
library, not under `src/`; `_setup_handlers` only configures it.  Spec
§4.4: a file's state is its current size and the sizes of its backups,
newest first. -/
structure RotState where
  current : Nat
  backups : List Nat
  deriving DecidableEq, Repr

/-- Modelled from the spec: rotation shifts the current file to be the
newest backup, discards backups beyond `backupCount`, and opens a fresh
empty current file. -/
def rotateOnce (backupCount : Nat) (st : RotState) : RotState :=
  { current := 0, backups := (st.current :: st.backups).take backupCount }

/-- Modelled from the spec: before each write of `n` bytes, rotate exactly
once when `current size + n > max_file_size`, then append the whole write
to the (possibly fresh) current file.  Returns the rotation count for this
write (`1` or `0`) with the new state. -/
def writeSink (maxSize backupCount : Nat) (st : RotState) (n : Nat) :
    Nat × RotState :=
  if st.current + n > maxSize then
    let st1 := rotateOnce backupCount st
    (1, { st1 with current := st1.current + n })
  else (0, { st with current := st.current + n })

/-- Run a sequence of writes from a state, accumulating the total number
of rotations performed. -/
def runWrites (maxSize backupCount : Nat) (st : RotState) :
    List Nat → Nat × RotState
  | [] => (0, st)
  | n :: rest =>
      let (r1, st1) := writeSink maxSize backupCount st n
      let (r2, st2) := runWrites maxSize backupCount st1 rest
      (r1 + r2, st2)

/-- The freshly opened sink: empty current file, no backups. -/
def initialSink : RotState := { current := 0, backups := [] }

/-- The primitive value types of the spec's round-trip requirement:
numbers, strings, booleans, null. -/
def isPrimitive : Value → Bool
  | .vnull => true
  | .vbool _ => true
  | .vint _ => true
  | .vfloat _ => true
  | .vstr _ => true
  | .vtuple _ => false
  | .vctx _ => false
  | .vexc _ => false
  | .vother _ => false

/-- Tuples serialize natively as JSON arrays, not through `default=str`. -/
def isTuple : Value → Bool
  | .vtuple _ => true
  | _ => false

/-- `json.loads` of a scalar back to the runtime value (the round-trip
direction; composite values are not claimed round-trippable). -/
def jsonToValue : JValue → Option Value
  | .jnull => some .vnull
  | .jbool b => some (.vbool b)
  | .jint n => some (.vint n)
  | .jfloat q => some (.vfloat q)
  | .jstr s => some (.vstr s)
  | .jarr _ => none
  | .jobj _ => none

instance {ε α : Type} [DecidableEq ε] [DecidableEq α] :
    DecidableEq (Except ε α) := fun x y =>
  match x, y with
  | .error a, .error b =>
      if h : a = b then .isTrue (by rw [h])
      else .isFalse (by intro hc; cases hc; exact h rfl)
  | .ok a, .ok b =>
      if h : a = b then .isTrue (by rw [h])
      else .isFalse (by intro hc; cases hc; exact h rfl)
  | .error _, .ok _ => .isFalse (by intro hc; cases hc)
  | .ok _, .error _ => .isFalse (by intro hc; cases hc)

/-! ## Helper lemmas -/

theorem getAttr_setAttr_ne (attrs : Attrs) (k' k : String) (v : Value)
    (h : (k' == k) = false) : getAttr (setAttr attrs k' v) k = getAttr attrs k := by
  induction attrs with
  | nil => simp [setAttr, getAttr, h]
  | cons p rest ih =>
      by_cases hp : (p.1 == k') = true
      · have hpk : p.1 = k' := eq_of_beq hp
        simp [setAttr, getAttr, hp, hpk, h]
      · simp only [Bool.not_eq_true] at hp
        by_cases hq : (p.1 == k) = true
        · simp [setAttr, getAttr, hp, hq]
        · simp only [Bool.not_eq_true] at hq
          simp [setAttr, getAttr, hp, hq, ih]

theorem getAttr_setAttr_self (attrs : Attrs) (k : String) (v : Value) :
    getAttr (setAttr attrs k v) k = some v := by
  induction attrs with
  | nil => simp [setAttr, getAttr]
  | cons p rest ih =>
      by_cases hp : (p.1 == k) = true
      · simp [setAttr, getAttr, hp]
      · simp only [Bool.not_eq_true] at hp
        simp [setAttr, getAttr, hp, ih]

theorem getAttr_applyKwargs_ne (kwargs : List (String × Value)) (attrs : Attrs)
    (k : String) (h : ∀ p ∈ kwargs, (p.1 == k) = false) :
    getAttr (applyKwargs attrs kwargs) k = getAttr attrs k := by
  induction kwargs generalizing attrs with
  | nil => rfl
  | cons p rest ih =>
      have hp := h p (by simp)
      have hrest : ∀ q ∈ rest, (q.1 == k) = false := fun q hq => h q (by simp [hq])
      unfold applyKwargs
      simp only [List.foldl_cons]
      rw [show (rest.foldl (fun a q => setAttr a q.1 q.2) (setAttr attrs p.1 p.2))
            = applyKwargs (setAttr attrs p.1 p.2) rest from rfl,
          ih (setAttr attrs p.1 p.2) hrest,
          getAttr_setAttr_ne attrs p.1 k p.2 hp]

theorem runWrites_backups_length (maxSize bc : Nat) (ws : List Nat)
    (st : RotState) (hle : st.backups.length ≤ bc) :
    ((runWrites maxSize bc st ws).2).backups.length
      = min (st.backups.length + (runWrites maxSize bc st ws).1) bc := by
  induction ws generalizing st with
  | nil => simpa [runWrites] using hle
  | cons n rest ih =>
      unfold runWrites writeSink
      by_cases hcond : st.current + n > maxSize
      · simp only [hcond, if_pos]
        have hlen : ((rotateOnce bc st).backups).length = min bc (st.backups.length + 1) := by
          simp [rotateOnce]
        have hle1 : ({ rotateOnce bc st with
                        current := (rotateOnce bc st).current + n } : RotState).backups.length ≤ bc := by
          simp [rotateOnce]
        rw [ih _ hle1]
        simp only [rotateOnce] at *
        simp only [List.length_take, List.length_cons] at *
        omega
      · simp only [hcond, if_neg, not_false_iff]
        have hle1 : ({ st with current := st.current + n } : RotState).backups.length ≤ bc := hle
        rw [ih _ hle1]
        dsimp only
        omega

theorem formatRecord_isOk (ts : String) (attrs : Attrs)
    (ha : getAttr attrs "args" = some (.vtuple []))
    (hc : getAttr attrs "context" = none
      ∨ ∃ c, getAttr attrs "context" = some (.vctx c))
    (he : getAttr attrs "exc_info" = some .vnull
      ∨ ∃ e, getAttr attrs "exc_info" = some (.vexc e)) :
    (formatRecord ts attrs).isOk = true := by
  rcases hc with hceq | ⟨c, hceq⟩ <;>
    rcases he with heeq | ⟨e, heeq⟩ <;>
    cases hcid : getAttr attrs "correlation_id" <;>
    cases hdur : getAttr attrs "duration" <;>
    simp [formatRecord, getMessage, getAttrD, ha, hceq, heeq, hcid, hdur,
      pyTruthy, Except.isOk, Except.toBool, pure, Except.pure, bind, Except.bind]

/-! ## Claim theorems -/

/-- C1: for every sequence of nested calls to the scoped-context manager
`context(**fields)` and for every exit mode (normal return or an exception
raised by the scoped body), after the outermost scope exits the ambient
context returned by `get_context()` equals exactly the value it had before
entry: save/restore behaves as a perfect stack on every exit path. -/
theorem scoped_context_is_perfect_stack (st : Option LogContext)
    (kws : List (String × String)) (fresh : String) (body : CtxProg) :
    (runCtx st (.scope kws fresh body)).2 = st := by
  cases h : mkLogContext (contextKwargs kws fresh) with
  | error e => simp [runCtx, h]
  | ok c => cases st <;> simp [runCtx, h]

/-- C9: entering `context(**kwargs)` with a keyword that is not a
`LogContext` field name raises `TypeError` while constructing the new
`LogContext`, and the ambient context is left exactly as it was: the
failure occurs before any context is installed. -/
theorem scope_invalid_key_raises_before_install (st : Option LogContext)
    (kws : List (String × String)) (fresh : String) (body : CtxProg)
    (hbad : kws.all (fun p => logContextFieldNames.contains p.1) = false) :
    runCtx st (.scope kws fresh body) = (.error .typeError, st) := by
  have hall : (contextKwargs kws fresh).all
      (fun p => logContextFieldNames.contains p.1) = false := by
    unfold contextKwargs
    split
    · exact hbad
    · rw [List.all_append, hbad, Bool.false_and]
  have hmk : mkLogContext (contextKwargs kws fresh) = .error .typeError := by
    unfold mkLogContext
    rw [hall]
    simp
  simp [runCtx, hmk]

/-- Witness for C9 at a concrete bad keyword. -/
theorem scope_invalid_key_witness :
    (([("bogus", "x")] : List (String × String)).all
        (fun p => logContextFieldNames.contains p.1) = false) ∧
    runCtx none (.scope [("bogus", "x")] "F" .skip) = (.error .typeError, none) :=
  ⟨by decide,
   scope_invalid_key_raises_before_install none [("bogus", "x")] "F" .skip (by decide)⟩

/-- C7: entering `context(**fields)` with valid field names succeeds; the
value yielded to the scoped body equals the correlation id of the newly
installed active context, and when the caller did not supply a
`correlation_id` that id is the freshly generated one. -/
theorem context_entry_yields_active_correlation_id (st : Option LogContext)
    (kws : List (String × String)) (fresh : String)
    (hvalid : kws.all (fun p => logContextFieldNames.contains p.1) = true) :
    ∃ c : LogContext, contextEnter st kws fresh = .ok (c.correlation_id, some c) ∧
      (lookupKw kws "correlation_id" = none → c.correlation_id = fresh) := by
  cases hc : lookupKw kws "correlation_id" with
  | some cid =>
      have hkw : contextKwargs kws fresh = kws := by
        simp [contextKwargs, hc]
      have hmk : mkLogContext (contextKwargs kws fresh)
          = .ok { correlation_id := cid
                  user_id := lookupKw kws "user_id"
                  session_id := lookupKw kws "session_id"
                  request_id := lookupKw kws "request_id"
                  service_name := (lookupKw kws "service_name").getD "logging-service"
                  version := (lookupKw kws "version").getD "1.0.0" } := by
        rw [hkw]
        unfold mkLogContext
        rw [hvalid, hc]
        simp
      refine ⟨{ correlation_id := cid
                user_id := lookupKw kws "user_id"
                session_id := lookupKw kws "session_id"
                request_id := lookupKw kws "request_id"
                service_name := (lookupKw kws "service_name").getD "logging-service"
                version := (lookupKw kws "version").getD "1.0.0" }, ?_, ?_⟩
      · simp [contextEnter, hmk]
      · intro hnone
        simp [hc] at hnone
  | none =>
      have hkw : contextKwargs kws fresh = kws ++ [("correlation_id", fresh)] := by
        simp [contextKwargs, hc]
      have hall : (kws ++ [("correlation_id", fresh)]).all
          (fun p => logContextFieldNames.contains p.1) = true := by
        rw [List.all_append, hvalid, Bool.true_and]
        rfl
      have hfindkws : List.find? (fun p => p.1 == "correlation_id") kws = none := by
        cases hf : List.find? (fun p => p.1 == "correlation_id") kws with
        | none => rfl
        | some q => simp [lookupKw, hf] at hc
      refine ⟨{ correlation_id := fresh
                user_id := lookupKw (kws ++ [("correlation_id", fresh)]) "user_id"
                session_id := lookupKw (kws ++ [("correlation_id", fresh)]) "session_id"
                request_id := lookupKw (kws ++ [("correlation_id", fresh)]) "request_id"
                service_name := (lookupKw (kws ++ [("correlation_id", fresh)])
                  "service_name").getD "logging-service"
                version := (lookupKw (kws ++ [("correlation_id", fresh)])
                  "version").getD "1.0.0" }, ?_, fun _ => rfl⟩
      have hcid : lookupKw (kws ++ [("correlation_id", fresh)]) "correlation_id"
          = some fresh := by
        simp [lookupKw, List.find?_append, hfindkws]
      have hmk : mkLogContext (contextKwargs kws fresh)
          = .ok { correlation_id := fresh
                  user_id := lookupKw (kws ++ [("correlation_id", fresh)]) "user_id"
                  session_id := lookupKw (kws ++ [("correlation_id", fresh)]) "session_id"
                  request_id := lookupKw (kws ++ [("correlation_id", fresh)]) "request_id"
                  service_name := (lookupKw (kws ++ [("correlation_id", fresh)])
                    "service_name").getD "logging-service"
                  version := (lookupKw (kws ++ [("correlation_id", fresh)])
                    "version").getD "1.0.0" } := by
        rw [hkw]
        unfold mkLogContext
        rw [hall, hcid]
        simp
      simp [contextEnter, hmk]

/-- Witness for C7 at concrete fields without a caller correlation id. -/
theorem context_entry_witness :
    (([("user_id", "u1")] : List (String × String)).all
        (fun p => logContextFieldNames.contains p.1) = true) ∧
    (∃ c : LogContext,
      contextEnter none [("user_id", "u1")] "FRESH" = .ok (c.correlation_id, some c) ∧
      (lookupKw [("user_id", "u1")] "correlation_id" = none →
        c.correlation_id = "FRESH")) :=
  ⟨by decide,
   context_entry_yields_active_correlation_id none [("user_id", "u1")] "FRESH" (by decide)⟩

/-- C2 counterexample: the claim that reserved serialized names are never
overwritten by a caller-supplied field of the same name is false — a call
`info("hello", message="spoofed")` serializes `message` as the caller's
value, not the record's message slot. -/
theorem reserved_field_collision_counterexample :
    (formatRecord "T" (logWithContext "app" none 20 "hello"
        [("message", .vstr "spoofed")])).map (fun d => dictLookup d "message")
      = .ok (some (.jstr "spoofed"))
    ∧ ("spoofed" : String) ≠ "hello" := by
  constructor
  · rfl
  · decide

/-- C2 amended: caller-supplied fields are attached by `setattr` without
any reserved-name filtering, and the formatter's extra-fields loop copies
them over the dedicated entries: for every message and every caller value
under the reserved key `message`, the serialized `message` entry is the
caller's value. -/
theorem reserved_field_overwrites_dedicated_slot (n ts m : String) (v : Value) :
    (formatRecord ts (logWithContext n none 20 m [("message", v)])).map
        (fun d => dictLookup d "message")
      = .ok (some (serializeValue v)) := by
  rfl

/-- C3 counterexample: with facade minimum level INFO, a DEBUG call is
still dispatched — `_log_with_context` calls `Logger.handle` directly,
bypassing the facade-level check, and the all-logs file handler is set to
DEBUG, so the record reaches the file sink. -/
theorem facade_level_not_checked_counterexample :
    dispatchedKinds (setupHandlers "app" "logs" 20 10485760 5)
        (logWithContext "app" none 10 "dbg" []) = [SinkKind.file]
    ∧ ([SinkKind.file] : List SinkKind) ≠ [] := by
  constructor
  · rfl
  · decide

/-- C3 amended: no facade-level threshold check happens at emission; every
record is dispatched to exactly those sink bindings whose own minimum
level admits it — the console binding at the facade level, the all-logs
file binding at DEBUG, and the error binding at ERROR.  A record below the
facade level therefore still reaches the file sink. -/
theorem dispatch_exactly_by_sink_level (n d m : String) (L lvl : Int)
    (mfs bc : Nat) :
    dispatchedKinds (setupHandlers n d L mfs bc)
        (logWithContext n none lvl m [])
      = (if L ≤ lvl then [SinkKind.console] else [])
        ++ (if (10 : Int) ≤ lvl then [SinkKind.file] else [])
        ++ (if (40 : Int) ≤ lvl then [SinkKind.errorFile] else []) := by
  have hl : recordLevelno (logWithContext n none lvl m []) = lvl := rfl
  simp only [dispatchedKinds, handleRecord, setupHandlers, hl,
    List.filter_cons, List.filter_nil]
  by_cases h1 : L ≤ lvl <;> by_cases h2 : (10 : Int) ≤ lvl <;>
    by_cases h3 : (40 : Int) ≤ lvl <;>
    simp [h1, h2, h3]

/-- C6: `error(message, exception=E)` builds the record at ERROR level
regardless of anything else; its serialization carries an exception object
populated from E's class name, textual message and formatted stack trace;
the record is admitted by both the all-levels file binding and the
error-only binding; and a plain `error(message)` still yields an
ERROR-level record with no exception payload. -/
theorem error_method_level_payload_routing (ts m n dir : String) (e : ExcInfo)
    (L : Int) (mfs bc : Nat) :
    recordLevelno (errorMethod n none m (some e) []) = 40
    ∧ (formatRecord ts (errorMethod n none m (some e) [])).map
        (fun d => dictLookup d "exception")
      = .ok (some (.jobj [("type", .jstr e.typeName),
                          ("message", .jstr e.message),
                          ("traceback", .jstr e.traceback)]))
    ∧ SinkKind.file ∈ dispatchedKinds (setupHandlers n dir L mfs bc)
        (errorMethod n none m (some e) [])
    ∧ SinkKind.errorFile ∈ dispatchedKinds (setupHandlers n dir L mfs bc)
        (errorMethod n none m (some e) [])
    ∧ recordLevelno (errorMethod n none m none []) = 40
    ∧ (formatRecord ts (errorMethod n none m none [])).map
        (fun d => dictLookup d "exception")
      = .ok none := by
  have hlv : recordLevelno (errorMethod n none m (some e) []) = 40 := rfl
  refine ⟨rfl, rfl, ?_, ?_, rfl, rfl⟩ <;>
  · simp only [dispatchedKinds, handleRecord, setupHandlers, hlv,
      List.filter_cons, List.filter_nil]
    by_cases h1 : L ≤ 40 <;> simp [h1]

/-- C5: `timer(name)` emits exactly one INFO "Starting" record (with no
exception payload) before the body runs; on failure it emits exactly one
ERROR record carrying the failure and the elapsed milliseconds as
`duration`, then propagates the original failure unchanged; on normal
completion it instead emits an INFO "Completed" record with the elapsed
milliseconds. -/
theorem timer_emits_and_reraises (n op : String) (ctx : Option LogContext)
    (e : ExcInfo) (s t : Rat) :
    (∃ r1 r2, timerRun n ctx op (.error e) s t = ([r1, r2], .error e)
      ∧ recordLevelno r1 = 20
      ∧ pyStr (getAttrD r1 "msg") = "Starting " ++ op
      ∧ getAttr r1 "exc_info" = some .vnull
      ∧ recordLevelno r2 = 40
      ∧ getAttr r2 "exc_info" = some (.vexc e)
      ∧ getAttr r2 "duration" = some (.vfloat ((t - s) * 1000)))
    ∧ (∃ r1 r3, timerRun n ctx op (.ok ()) s t = ([r1, r3], .ok ())
      ∧ recordLevelno r3 = 20
      ∧ pyStr (getAttrD r3 "msg") = "Completed " ++ op
      ∧ getAttr r3 "duration" = some (.vfloat ((t - s) * 1000))) := by
  cases ctx with
  | none =>
      exact ⟨⟨_, _, rfl, rfl, rfl, rfl, rfl, rfl, rfl⟩, ⟨_, _, rfl, rfl, rfl, rfl⟩⟩
  | some c =>
      exact ⟨⟨_, _, rfl, rfl, rfl, rfl, rfl, rfl, rfl⟩, ⟨_, _, rfl, rfl, rfl, rfl⟩⟩

/-- C8 counterexample: serialization is not total — a caller field named
`context` holding a non-dataclass value makes the formatter raise
(`asdict` on a non-dataclass), so `info("x", context="oops")` fails to
render instead of stringifying; likewise a caller field named `args`
holding a non-empty tuple makes `getMessage`'s `msg % args` raise
(`"hello" % (1,)` has an argument left unconverted), so
`info("hello", args=(1,))` fails to render as well. -/
theorem formatter_raises_on_context_field_counterexample :
    formatRecord "T" (logWithContext "app" none 20 "x"
        [("context", .vstr "oops")]) = .error .typeError
    ∧ formatRecord "T" (logWithContext "app" none 20 "hello"
        [("args", .vtuple [.vint 1])]) = .error .typeError := by
  exact ⟨rfl, rfl⟩

/-- C8 amended: for every record built by the logging methods whose caller
fields avoid the attribute names `context`, `exc_info` and `args`,
serialization never fails; primitive values (numbers, strings, booleans,
null) round-trip, and every non-primitive, non-container field value is
stringified rather than making the render raise (tuples serialize natively
as JSON arrays).  A caller field named `context` (non-dataclass value) or
named `args` (truthy value mismatching the message) makes the render raise
instead — see the counterexample. -/
theorem formatter_total_and_stringifies (n m ts : String)
    (ctx : Option LogContext) (lvl : Int) (kwargs : List (String × Value))
    (v : Value)
    (hk : kwargs.all (fun p =>
      !(p.1 == "context") && !(p.1 == "exc_info") && !(p.1 == "args")) = true) :
    (formatRecord ts (logWithContext n ctx lvl m kwargs)).isOk = true
    ∧ (isPrimitive v = true → jsonToValue (serializeValue v) = some v)
    ∧ (isPrimitive v = false ∧ isTuple v = false → ∃ s, serializeValue v = .jstr s) := by
  have hk' : ∀ p ∈ kwargs, (p.1 == "context") = false
      ∧ (p.1 == "exc_info") = false ∧ (p.1 == "args") = false := by
    intro p hp
    have hall := (List.all_eq_true.mp hk) p hp
    rw [Bool.and_eq_true, Bool.and_eq_true, Bool.not_eq_true', Bool.not_eq_true',
      Bool.not_eq_true'] at hall
    exact ⟨hall.1.1, hall.1.2, hall.2⟩
  refine ⟨?_, ?_, ?_⟩
  · apply formatRecord_isOk
    · have hargs : getAttr (logWithContext n ctx lvl m kwargs) "args"
          = getAttr (addContextAttrs (baseAttrs n lvl m none) ctx) "args" :=
        getAttr_applyKwargs_ne kwargs _ "args" (fun p hp => (hk' p hp).2.2)
      cases ctx with
      | none => exact hargs.trans rfl
      | some c => exact hargs.trans rfl
    · have hctx : getAttr (logWithContext n ctx lvl m kwargs) "context"
          = getAttr (addContextAttrs (baseAttrs n lvl m none) ctx) "context" :=
        getAttr_applyKwargs_ne kwargs _ "context" (fun p hp => (hk' p hp).1)
      cases ctx with
      | none => exact Or.inl hctx
      | some c => exact Or.inr ⟨c, hctx⟩
    · have hexc : getAttr (logWithContext n ctx lvl m kwargs) "exc_info"
          = getAttr (addContextAttrs (baseAttrs n lvl m none) ctx) "exc_info" :=
        getAttr_applyKwargs_ne kwargs _ "exc_info" (fun p hp => (hk' p hp).2.1)
      cases ctx with
      | none => exact Or.inl hexc
      | some c => exact Or.inl hexc
  · intro hp
    cases v <;> simp_all [isPrimitive, serializeValue, jsonToValue]
  · intro hp
    cases v <;> simp_all [isPrimitive, isTuple, serializeValue, jsonToValue]

/-- Witness for C8 at a concrete record and primitive value. -/
theorem formatter_total_witness :
    (([("rows", Value.vint 42)] : List (String × Value)).all
        (fun p =>
          !(p.1 == "context") && !(p.1 == "exc_info") && !(p.1 == "args")) = true)
    ∧ ((formatRecord "T" (logWithContext "app" none 20 "x"
          [("rows", Value.vint 42)])).isOk = true
      ∧ (isPrimitive (Value.vint 42) = true →
          jsonToValue (serializeValue (Value.vint 42)) = some (Value.vint 42))
      ∧ (isPrimitive (Value.vint 42) = false ∧ isTuple (Value.vint 42) = false →
          ∃ s, serializeValue (Value.vint 42) = .jstr s)) :=
  ⟨by decide,
   formatter_total_and_stringifies "app" "x" "T" none 20
     [("rows", Value.vint 42)] (Value.vint 42) (by decide)⟩

/-- C4 (modelled from the spec, see `writeSink`): a pending write of `n`
bytes with `current + n > max_file_size` triggers exactly one rotation
and the whole write lands in the fresh current file (never spanning two
files); a fitting write triggers none; and once a write sequence from a
fresh sink has performed at least `backup_count + 1` rotations, exactly
`backup_count` backup files remain beside the current file, the oldest
having been discarded. -/
theorem rotating_sink_bounded_backups (maxSize bc n m : Nat) (st : RotState)
    (ws : List Nat)
    (hgt : maxSize < st.current + n)
    (hfit : st.current + m ≤ maxSize)
    (hrot : bc + 1 ≤ (runWrites maxSize bc initialSink ws).1) :
    writeSink maxSize bc st n
      = (1, { current := n, backups := (st.current :: st.backups).take bc })
    ∧ writeSink maxSize bc st m = (0, { st with current := st.current + m })
    ∧ ((runWrites maxSize bc initialSink ws).2).backups.length = bc := by
  refine ⟨?_, ?_, ?_⟩
  · unfold writeSink
    rw [if_pos (by omega)]
    simp [rotateOnce]
  · unfold writeSink
    rw [if_neg (by omega)]
  · rw [runWrites_backups_length maxSize bc ws initialSink (by simp [initialSink])]
    simp only [initialSink, List.length_nil, Nat.zero_add] at hrot ⊢
    omega

/-- Witness for C4: max size 10, backup count 2, an overflowing write of
11 bytes, a fitting write of 5 bytes, and four 6-byte writes causing three
rotations. -/
theorem rotating_sink_witness :
    (10 < initialSink.current + 11
      ∧ initialSink.current + 5 ≤ 10
      ∧ 2 + 1 ≤ (runWrites 10 2 initialSink [6, 6, 6, 6]).1)
    ∧ (writeSink 10 2 initialSink 11
        = (1, { current := 11,
                backups := (initialSink.current :: initialSink.backups).take 2 })
      ∧ writeSink 10 2 initialSink 5
        = (0, { initialSink with current := initialSink.current + 5 })
      ∧ ((runWrites 10 2 initialSink [6, 6, 6, 6]).2).backups.length = 2) :=
  ⟨⟨by decide, by decide, by decide⟩,
   rotating_sink_bounded_backups 10 2 11 5 initialSink [6, 6, 6, 6]
     (by decide) (by decide) (by decide)⟩

/-- C10: `get_logger(name, **kwargs)` returns a logger whose name is the
requested one; a second call with the cached logger's name returns the
identical cached instance, ignores the kwargs and constructs nothing; a
call with a different name (or with an empty cache) constructs a fresh
`AdvancedLogger` and replaces the cached singleton with it. -/
theorem get_logger_singleton_cache (cached : AdvancedLoggerM) (name2 : String)
    (kw1 kw2 : LoggerKwargs) (fresh : AdvancedLoggerM)
    (hne : (cached.name == name2) = false)
    (hmk : mkAdvancedLogger name2 kw2 = .ok fresh) :
    getLogger (some cached) cached.name kw1 = .ok (cached, some cached, false)
    ∧ getLogger (some cached) name2 kw2 = .ok (fresh, some fresh, true)
    ∧ fresh.name = name2
    ∧ getLogger none name2 kw2 = .ok (fresh, some fresh, true) := by
  refine ⟨?_, ?_, ?_, ?_⟩
  · simp [getLogger]
  · simp [getLogger, hne, hmk]
  · unfold mkAdvancedLogger at hmk
    cases hl : levelFromString kw2.log_level with
    | error e => rw [hl] at hmk; cases hmk
    | ok lvl =>
        rw [hl] at hmk
        injection hmk with h
        rw [← h]
  · simp [getLogger, hmk]

/-- Witness for C10 at a concrete cached logger and a different name. -/
theorem get_logger_witness :
    (((⟨"app", 20, "logs", []⟩ : AdvancedLoggerM).name == "db") = false
      ∧ mkAdvancedLogger "db" ⟨"INFO", "logs", 10485760, 5⟩
        = .ok ⟨"db", 20, "logs", setupHandlers "db" "logs" 20 10485760 5⟩)
    ∧ (getLogger (some ⟨"app", 20, "logs", []⟩)
          (⟨"app", 20, "logs", []⟩ : AdvancedLoggerM).name ⟨"DEBUG", "l", 1, 1⟩
        = .ok (⟨"app", 20, "logs", []⟩, some ⟨"app", 20, "logs", []⟩, false)
      ∧ getLogger (some ⟨"app", 20, "logs", []⟩) "db" ⟨"INFO", "logs", 10485760, 5⟩
        = .ok (⟨"db", 20, "logs", setupHandlers "db" "logs" 20 10485760 5⟩,
               some ⟨"db", 20, "logs", setupHandlers "db" "logs" 20 10485760 5⟩, true)
      ∧ (⟨"db", 20, "logs", setupHandlers "db" "logs" 20 10485760 5⟩
          : AdvancedLoggerM).name = "db"
      ∧ getLogger none "db" ⟨"INFO", "logs", 10485760, 5⟩
        = .ok (⟨"db", 20, "logs", setupHandlers "db" "logs" 20 10485760 5⟩,
               some ⟨"db", 20, "logs", setupHandlers "db" "logs" 20 10485760 5⟩, true)) :=
  ⟨⟨by decide, by decide⟩,
   get_logger_singleton_cache ⟨"app", 20, "logs", []⟩ "db" ⟨"DEBUG", "l", 1, 1⟩
     ⟨"INFO", "logs", 10485760, 5⟩
     ⟨"db", 20, "logs", setupHandlers "db" "logs" 20 10485760 5⟩
     (by decide) (by decide)⟩

end LoggingSystem
